import Mathlib

/-!
Verification development for the landing-page designer component.

The definitions below are shallow embeddings of the TypeScript source in
`src/components/landing-page-designer.tsx` and `src/app/page.tsx`:

* the dynamic-field substitution engine (`renderDynamicText`,
  `renderRichTextWithDynamicFields`),
* the data model (`LandingPageData`) with its defaults and seed merge
  (`mergeInitialData`),
* the configuration store's three update operations (`updateData`,
  `updateButton`, `updateBackground`) together with their change-sink
  emission (`runUpdate`),
* the preview renderer (`renderLandingPageContent`),
* the feedback modal's interaction state machine (`fbStep`),
* the contact-card export string (`vCardData`).
-/

/-! ## Dynamic field substitution engine

Embeds `renderDynamicText` (source lines 474-485):

    text.replace(/\{\{([^}]+)\}\}/g, (match, field) => sampleData[field] || `[${field}]`)

The regex matches a literal `\x7b\x7b`, then a nonempty run of characters other
than `\x7d` (the captured field name), then a literal `\x7d\x7d`.  The global
replace scans left to right, never rescans substituted output, and on a failed
match advances by one character.
-/

/-- The property names a plain object literal inherits from
`Object.prototype`, in their specification order.  `sampleData[field]` finds
a truthy value for each of them even though none is an own property of the
table. -/
def objectPrototypeMembers : List String :=
  ["constructor", "hasOwnProperty", "isPrototypeOf", "propertyIsEnumerable",
   "toLocaleString", "toString", "valueOf", "__defineGetter__",
   "__defineSetter__", "__lookupGetter__", "__lookupSetter__", "__proto__"]

/-- String coercion of the value `sampleData[field]` inherits from
`Object.prototype`: `constructor` is the `Object` constructor function,
`__proto__` evaluates to the prototype object itself, and the rest are the
built-in methods named after the property.  The source text of a native
function is implementation-defined; the common V8 form is used here.  The
theorems only rely on these strings differing from the bracketed names. -/
def protoCoerced : String → String
  | "constructor" => "function Object() \x7b [native code] \x7d"
  | "__proto__" => "[object Object]"
  | f => "function " ++ f ++ "() \x7b [native code] \x7d"

/-- The lookup of `renderDynamicText`: `sampleData[field] || bracket`.
`sampleData` is a plain object literal, so the property access also consults
the prototype chain: a field named after an `Object.prototype` member finds
the truthy inherited value and the replace callback coerces it to a string,
so the bracket fallback is never reached for those names.  The four own
names map to the literal sample values; every other name resolves to the
bracketed name. -/
def lookupSample (field : String) : String :=
  if field = "first-name" then "Sarah"
  else if field = "last-name" then "Johnson"
  else if field = "company" then "Acme Corp"
  else if field = "gift-name" then "Premium Package"
  else if field ∈ objectPrototypeMembers then protoCoerced field
  else "[" ++ field ++ "]"

/-- Attempt of the regex body right after a `\x7b\x7b`: take the maximal run of
non-`\x7d` characters; the match succeeds when that run is nonempty and is
immediately followed by `\x7d\x7d`.  Returns the captured name and the
remaining input after the closing braces. -/
def takeName (cs : List Char) : Option (List Char × List Char) :=
  match cs.dropWhile (fun c => c != '}') with
  | '}' :: '}' :: r =>
      if (cs.takeWhile (fun c => c != '}')).isEmpty then none
      else some (cs.takeWhile (fun c => c != '}'), r)
  | _ => none

/-- One fuel-indexed scanning pass of the global regex replace.  Fuel only
bounds recursion depth; `cs.length` fuel is always enough (`substAux_congr`). -/
def substAux : Nat → List Char → List Char
  | 0, cs => cs
  | _ + 1, [] => []
  | fuel + 1, c :: rest =>
    if c = '{' then
      match rest with
      | c2 :: rest2 =>
        if c2 = '{' then
          match takeName rest2 with
          | some (n, r) => (lookupSample (String.mk n)).data ++ substAux fuel r
          | none => c :: substAux fuel rest
        else c :: substAux fuel rest
      | [] => [c]
    else c :: substAux fuel rest

/-- The single left-to-right scan over a character list. -/
def substChars (cs : List Char) : List Char :=
  substAux cs.length cs

/-- `renderDynamicText` (source lines 474-485). -/
def renderDynamicText (text : String) : String :=
  String.mk (substChars text.data)

/-- `renderRichTextWithDynamicFields` (source lines 490-500); its body is
identical to `renderDynamicText`. -/
def renderRichTextWithDynamicFields (htmlContent : String) : String :=
  String.mk (substChars htmlContent.data)

/-- Whether the regex `\x7b\x7b([^\x7d]+)\x7d\x7d` matches anywhere in the
character list, mirroring the scan order of `substAux`. -/
def hasToken : List Char → Bool
  | [] => false
  | c :: rest =>
    if c = '{' then
      match rest with
      | c2 :: rest2 =>
        if c2 = '{' then
          match takeName rest2 with
          | some _ => true
          | none => hasToken rest
        else hasToken rest
      | [] => false
    else hasToken rest

/-- String-level view of `hasToken`. -/
def hasTokenStr (s : String) : Bool :=
  hasToken s.data

theorem takeName_some_length {cs n r : List Char}
    (h : takeName cs = some (n, r)) : r.length + 3 ≤ cs.length := by
  unfold takeName at h
  split at h
  case _ heq =>
    split at h
    · exact absurd h (by simp)
    case _ hne =>
      have hcs := List.takeWhile_append_dropWhile (p := fun c => c != '}') (l := cs)
      have hlen := congrArg List.length hcs
      rw [List.length_append, heq] at hlen
      have h1 : ¬ (cs.takeWhile (fun c => c != '}')).length = 0 := by
        intro h0
        exact hne (by simpa [List.isEmpty_iff, List.length_eq_zero] using h0)
      simp only [Option.some.injEq, Prod.mk.injEq] at h
      obtain ⟨-, hr⟩ := h
      subst hr
      simp at hlen
      omega
  case _ => exact absurd h (by simp)

theorem takeWhile_append_stop {n : List Char} (r : List Char)
    (hall : ∀ c ∈ n, c ≠ '}') :
    (n ++ '}' :: r).takeWhile (fun c => c != '}') = n := by
  induction n with
  | nil => simp [List.takeWhile_cons]
  | cons a t ih =>
      have ha : a ≠ '}' := hall a (by simp)
      simp only [List.cons_append, List.takeWhile_cons]
      simp [ha, ih (fun c hc => hall c (by simp [hc]))]

theorem dropWhile_append_stop {n : List Char} (r : List Char)
    (hall : ∀ c ∈ n, c ≠ '}') :
    (n ++ '}' :: r).dropWhile (fun c => c != '}') = '}' :: r := by
  induction n with
  | nil => simp [List.dropWhile_cons]
  | cons a t ih =>
      have ha : a ≠ '}' := hall a (by simp)
      simp only [List.cons_append, List.dropWhile_cons]
      simp [ha, ih (fun c hc => hall c (by simp [hc]))]

theorem takeName_token {n : List Char} (r : List Char) (hne : n ≠ [])
    (hall : ∀ c ∈ n, c ≠ '}') :
    takeName (n ++ '}' :: '}' :: r) = some (n, r) := by
  unfold takeName
  rw [dropWhile_append_stop ('}' :: r) hall, takeWhile_append_stop ('}' :: r) hall]
  simp [hne]

theorem substAux_congr (f₁ : Nat) : ∀ (f₂ : Nat) (cs : List Char),
    cs.length ≤ f₁ → cs.length ≤ f₂ → substAux f₁ cs = substAux f₂ cs := by
  induction f₁ with
  | zero =>
      intro f₂ cs h₁ _
      have hnil : cs = [] := List.length_eq_zero.mp (Nat.le_zero.mp h₁)
      subst hnil
      cases f₂ <;> simp [substAux]
  | succ f ih =>
      intro f₂ cs h₁ h₂
      cases cs with
      | nil => cases f₂ <;> simp [substAux]
      | cons c rest =>
          cases f₂ with
          | zero => simp at h₂
          | succ f₂' =>
              simp only [List.length_cons] at h₁ h₂
              by_cases hc : c = '{'
              · subst hc
                cases rest with
                | nil => simp [substAux]
                | cons c2 rest2 =>
                    simp only [List.length_cons] at h₁ h₂
                    by_cases hc2 : c2 = '{'
                    · subst hc2
                      cases hm : takeName rest2 with
                      | some nr =>
                          obtain ⟨n, r⟩ := nr
                          have hr := takeName_some_length hm
                          have hrec := ih f₂' r (by omega) (by omega)
                          simp [substAux, hm, hrec]
                      | none =>
                          have hrec := ih f₂' ('{' :: rest2)
                            (by simp; omega) (by simp; omega)
                          simp [substAux, hm, hrec]
                    · have hrec := ih f₂' (c2 :: rest2)
                        (by simp; omega) (by simp; omega)
                      simp [substAux, hc2, hrec]
              · have hrec := ih f₂' rest (by omega) (by omega)
                simp [substAux, hc, hrec]

theorem substChars_eq_substAux {fuel : Nat} (cs : List Char)
    (h : cs.length ≤ fuel) : substChars cs = substAux fuel cs :=
  substAux_congr cs.length fuel cs (Nat.le_refl _) h

/-- A successful token match at the head of the input is replaced through the
sample table and scanning continues after the token, never inside the
replacement. -/
theorem substChars_token {n : List Char} (r : List Char) (hne : n ≠ [])
    (hall : ∀ c ∈ n, c ≠ '}') :
    substChars ('{' :: '{' :: (n ++ '}' :: '}' :: r)) =
      (lookupSample (String.mk n)).data ++ substChars r := by
  have hlen : ('{' :: '{' :: (n ++ '}' :: '}' :: r)).length =
      (n.length + r.length + 3) + 1 := by
    simp [List.length_append]
    omega
  rw [substChars, hlen]
  have htn := takeName_token r hne hall
  have hrec : substAux (n.length + r.length + 3) r = substChars r :=
    (substChars_eq_substAux r (by omega)).symm
  simp [substAux, htn, hrec]

/-- On inputs the regex never matches, one scanning pass copies the input
verbatim, for every fuel value. -/
theorem substAux_id_of_no_token (fuel : Nat) : ∀ (cs : List Char),
    hasToken cs = false → substAux fuel cs = cs := by
  induction fuel with
  | zero => intro cs _; rfl
  | succ f ih =>
      intro cs h
      cases cs with
      | nil => rfl
      | cons c rest =>
          by_cases hc : c = '{'
          · subst hc
            cases rest with
            | nil => simp [substAux]
            | cons c2 rest2 =>
                by_cases hc2 : c2 = '{'
                · subst hc2
                  cases hm : takeName rest2 with
                  | some nr =>
                      exfalso
                      simp only [hasToken] at h
                      simp [hm] at h
                  | none =>
                      have h' : hasToken ('{' :: rest2) = false := by
                        simp only [hasToken] at h
                        simpa [hm] using h
                      simp [substAux, hm, ih ('{' :: rest2) h']
                · have h' : hasToken (c2 :: rest2) = false := by
                    simp only [hasToken] at h ⊢
                    simpa [hc2] using h
                  simp [substAux, hc2, ih (c2 :: rest2) h']
          · have h' : hasToken rest = false := by
              simp only [hasToken] at h
              simpa [hc] using h
            simp [substAux, hc, ih rest h']

theorem substChars_id_of_no_token {cs : List Char}
    (h : hasToken cs = false) : substChars cs = cs :=
  substAux_id_of_no_token cs.length cs h

/-! ## Data model

Embeds the `LandingPageData` interface (source lines 37-67), the
`InitialLandingPageData` partial seed (lines 74-101), the defaults
(lines 316-347) and the merge (lines 350-378).  JavaScript `Date` values are
modelled as calendar triples, which is all the component observes of them
(`format(date, "MMMM d, yyyy")`).
-/

/-- Calendar date, standing in for a JavaScript `Date`. -/
structure SimpleDate where
  year : Nat
  month : Nat
  day : Nat
deriving DecidableEq

inductive ResourceType
  | video
  | image
deriving DecidableEq

inductive BgType
  | solid
  | gradient
deriving DecidableEq

/-- The four fixed gradient directions `to-r`, `to-br`, `to-b`, `to-bl`. -/
inductive GradDir
  | toR
  | toBr
  | toB
  | toBl
deriving DecidableEq

/-- A button configuration; the source field `show` is called `shown` here
because `show` is a Lean keyword. -/
structure ButtonData where
  shown : Bool
  text : String
  url : String
  color : String
deriving DecidableEq

structure BackgroundData where
  type : BgType
  color : String
  gradientFrom : String
  gradientTo : String
  gradientDirection : GradDir
deriving DecidableEq

/-- The canonical design document (`LandingPageData`, source lines 37-67). -/
structure LandingPageData where
  logo : String
  title : String
  titleColor : String
  description : String
  descriptionColor : String
  showDate : Bool
  selectedDate : Option SimpleDate
  dateColor : String
  resourceType : ResourceType
  resourceUrl : String
  button1 : ButtonData
  button2 : ButtonData
  background : BackgroundData
deriving DecidableEq

/-- `defaultData` (source lines 316-347); `now` stands for the `new Date()`
taken at mount. -/
def defaultData (now : SimpleDate) : LandingPageData :=
  { logo := "/placeholder.svg?height=40&width=120&text=Logo"
    title := "Hello \x7b\x7bfirst-name\x7d\x7d, You\x27ve Got a Special Gift!"
    titleColor := "#111827"
    description := "We\x27re excited to share something special with you, \x7b\x7bfirst-name\x7d\x7d. Your gift is on its way, and we wanted to create this personalized experience just for you."
    descriptionColor := "#6B7280"
    showDate := true
    selectedDate := some now
    dateColor := "#7C3AED"
    resourceType := ResourceType.image
    resourceUrl := "/placeholder.svg?height=400&width=600&text=Gift+Preview"
    button1 := { shown := true, text := "Track My Gift", url := "#", color := "#7C3AED" }
    button2 := { shown := true, text := "Learn More", url := "#", color := "#6B7280" }
    background :=
      { type := BgType.solid
        color := "#FFFFFF"
        gradientFrom := "#7C3AED"
        gradientTo := "#A855F7"
        gradientDirection := GradDir.toBr } }

/-- Partial seed for one button (`InitialLandingPageData.button1/2`); `show`
is not seedable. -/
structure InitialButtonData where
  text : Option String
  url : Option String
  color : Option String
deriving DecidableEq

/-- The partial seed (`InitialLandingPageData`, source lines 74-101). -/
structure InitialLandingPageData where
  logo : Option String
  title : Option String
  description : Option String
  button1 : Option InitialButtonData
  button2 : Option InitialButtonData
  resourceUrl : Option String
  resourceType : Option ResourceType
  selectedDate : Option SimpleDate
  showDate : Option Bool
deriving DecidableEq

/-- The all-absent seed, the JavaScript object literal with no fields. -/
def emptySeed : InitialLandingPageData :=
  { logo := none, title := none, description := none, button1 := none
    button2 := none, resourceUrl := none, resourceType := none
    selectedDate := none, showDate := none }

/-- Mirrors the conditional spread `...(initial.x && \x7b x: initial.x \x7d)`:
a missing field keeps the current value, and so does a provided empty string,
because the empty string is falsy in JavaScript. -/
def strOverride (cur : String) : Option String → String
  | none => cur
  | some v => if v = "" then cur else v

/-- Key-by-key button merge (`mergeInitialData`, source lines 364-376);
`defaults.button1` is spread first and only provided truthy fields override. -/
def mergeButton (cur : ButtonData) (ib : Option InitialButtonData) : ButtonData :=
  { shown := cur.shown
    text := strOverride cur.text (ib.bind (fun b => b.text))
    url := strOverride cur.url (ib.bind (fun b => b.url))
    color := strOverride cur.color (ib.bind (fun b => b.color)) }

/-- `mergeInitialData` (source lines 350-378).  `showDate` overrides whenever
provided (the source tests `!== undefined`); `selectedDate` and `resourceType`
override whenever provided (a `Date` object and the nonempty enum strings are
always truthy); string fields override only when provided and nonempty. -/
def mergeInitialData (defaults : LandingPageData) :
    Option InitialLandingPageData → LandingPageData
  | none => defaults
  | some init =>
      { defaults with
        logo := strOverride defaults.logo init.logo
        title := strOverride defaults.title init.title
        description := strOverride defaults.description init.description
        resourceUrl := strOverride defaults.resourceUrl init.resourceUrl
        resourceType := init.resourceType.getD defaults.resourceType
        selectedDate :=
          match init.selectedDate with
          | some d => some d
          | none => defaults.selectedDate
        showDate := init.showDate.getD defaults.showDate
        button1 := mergeButton defaults.button1 init.button1
        button2 := mergeButton defaults.button2 init.button2 }

/-! ## Configuration store

Embeds the three update operations (source lines 416-452).  Each call-site of
`updateData` in the component passes one of the ten scalar top-level fields,
so the update vocabulary below carries a typed value per field.  An operation
builds the new snapshot (`\x7b ...data, [field]: value \x7d`), commits it with
`setData`, and then calls `onDataChange` with the same complete snapshot; the
sink calls of one operation are modelled as the returned list.
-/

/-- A typed top-level scalar assignment, one constructor per `updateData`
call site. -/
inductive TopFieldUpdate
  | logo (v : String)
  | title (v : String)
  | titleColor (v : String)
  | description (v : String)
  | descriptionColor (v : String)
  | showDate (v : Bool)
  | selectedDate (v : Option SimpleDate)
  | dateColor (v : String)
  | resourceType (v : ResourceType)
  | resourceUrl (v : String)
deriving DecidableEq

/-- A typed button-field assignment (`updateButton`'s `field` argument). -/
inductive BtnFieldUpdate
  | bshown (v : Bool)
  | btext (v : String)
  | burl (v : String)
  | bcolor (v : String)
deriving DecidableEq

inductive BtnId
  | b1
  | b2
deriving DecidableEq

/-- A typed background-field assignment (`updateBackground`'s `field`
argument). -/
inductive BgFieldUpdate
  | btype (v : BgType)
  | bcolor (v : String)
  | bfrom (v : String)
  | bto (v : String)
  | bdir (v : GradDir)
deriving DecidableEq

/-- `updateData` (source lines 416-420): spread of the old document with one
top-level field replaced. -/
def updateData (d : LandingPageData) : TopFieldUpdate → LandingPageData
  | .logo v => { d with logo := v }
  | .title v => { d with title := v }
  | .titleColor v => { d with titleColor := v }
  | .description v => { d with description := v }
  | .descriptionColor v => { d with descriptionColor := v }
  | .showDate v => { d with showDate := v }
  | .selectedDate v => { d with selectedDate := v }
  | .dateColor v => { d with dateColor := v }
  | .resourceType v => { d with resourceType := v }
  | .resourceUrl v => { d with resourceUrl := v }

def applyBtnField (b : ButtonData) : BtnFieldUpdate → ButtonData
  | .bshown v => { b with shown := v }
  | .btext v => { b with text := v }
  | .burl v => { b with url := v }
  | .bcolor v => { b with color := v }

/-- `updateButton` (source lines 426-436): spread of the old document with the
selected button object re-spread around one replaced field. -/
def updateButton (d : LandingPageData) (i : BtnId) (u : BtnFieldUpdate) :
    LandingPageData :=
  match i with
  | .b1 => { d with button1 := applyBtnField d.button1 u }
  | .b2 => { d with button2 := applyBtnField d.button2 u }

def applyBgField (b : BackgroundData) : BgFieldUpdate → BackgroundData
  | .btype v => { b with type := v }
  | .bcolor v => { b with color := v }
  | .bfrom v => { b with gradientFrom := v }
  | .bto v => { b with gradientTo := v }
  | .bdir v => { b with gradientDirection := v }

/-- `updateBackground` (source lines 442-452): spread of the old document with
the background object re-spread around one replaced field. -/
def updateBackground (d : LandingPageData) (u : BgFieldUpdate) :
    LandingPageData :=
  { d with background := applyBgField d.background u }

/-- One mutating call through any of the three operations. -/
inductive StoreUpdate
  | top (u : TopFieldUpdate)
  | button (i : BtnId) (u : BtnFieldUpdate)
  | background (u : BgFieldUpdate)
deriving DecidableEq

def applyUpdate (d : LandingPageData) : StoreUpdate → LandingPageData
  | .top u => updateData d u
  | .button i u => updateButton d i u
  | .background u => updateBackground d u

/-- One mutating call returns the committed snapshot together with the list of
snapshots passed to the `onDataChange` sink by that call, in call order. -/
def runUpdate (d : LandingPageData) (u : StoreUpdate) :
    LandingPageData × List LandingPageData :=
  let newData := applyUpdate d u
  (newData, [newData])

/-! Leaf field paths of the document, used to state frame conditions. -/

inductive BtnLeaf
  | lshown
  | ltext
  | lurl
  | lcolor
deriving DecidableEq

inductive BgLeaf
  | ltype
  | lcolor
  | lfrom
  | lto
  | ldir
deriving DecidableEq

inductive FieldPath
  | logo
  | title
  | titleColor
  | description
  | descriptionColor
  | showDate
  | selectedDate
  | dateColor
  | resourceType
  | resourceUrl
  | btn (i : BtnId) (f : BtnLeaf)
  | bg (p : BgLeaf)
deriving DecidableEq

/-- The value of one leaf field, wrapped in a common type. -/
inductive FieldVal
  | str (s : String)
  | bool (b : Bool)
  | date (d : Option SimpleDate)
  | res (r : ResourceType)
  | bgt (t : BgType)
  | dir (g : GradDir)
deriving DecidableEq

def btnGet (b : ButtonData) : BtnLeaf → FieldVal
  | .lshown => .bool b.shown
  | .ltext => .str b.text
  | .lurl => .str b.url
  | .lcolor => .str b.color

def bgGet (b : BackgroundData) : BgLeaf → FieldVal
  | .ltype => .bgt b.type
  | .lcolor => .str b.color
  | .lfrom => .str b.gradientFrom
  | .lto => .str b.gradientTo
  | .ldir => .dir b.gradientDirection

def getLeaf (d : LandingPageData) : FieldPath → FieldVal
  | .logo => .str d.logo
  | .title => .str d.title
  | .titleColor => .str d.titleColor
  | .description => .str d.description
  | .descriptionColor => .str d.descriptionColor
  | .showDate => .bool d.showDate
  | .selectedDate => .date d.selectedDate
  | .dateColor => .str d.dateColor
  | .resourceType => .res d.resourceType
  | .resourceUrl => .str d.resourceUrl
  | .btn i f => btnGet (match i with | .b1 => d.button1 | .b2 => d.button2) f
  | .bg p => bgGet d.background p

/-- The single leaf path an operation names. -/
def targetPath : StoreUpdate → FieldPath
  | .top (.logo _) => .logo
  | .top (.title _) => .title
  | .top (.titleColor _) => .titleColor
  | .top (.description _) => .description
  | .top (.descriptionColor _) => .descriptionColor
  | .top (.showDate _) => .showDate
  | .top (.selectedDate _) => .selectedDate
  | .top (.dateColor _) => .dateColor
  | .top (.resourceType _) => .resourceType
  | .top (.resourceUrl _) => .resourceUrl
  | .button i (.bshown _) => .btn i .lshown
  | .button i (.btext _) => .btn i .ltext
  | .button i (.burl _) => .btn i .lurl
  | .button i (.bcolor _) => .btn i .lcolor
  | .background (.btype _) => .bg .ltype
  | .background (.bcolor _) => .bg .lcolor
  | .background (.bfrom _) => .bg .lfrom
  | .background (.bto _) => .bg .lto
  | .background (.bdir _) => .bg .ldir

/-- The value an operation writes, as a leaf value. -/
def targetVal : StoreUpdate → FieldVal
  | .top (.logo v) => .str v
  | .top (.title v) => .str v
  | .top (.titleColor v) => .str v
  | .top (.description v) => .str v
  | .top (.descriptionColor v) => .str v
  | .top (.showDate v) => .bool v
  | .top (.selectedDate v) => .date v
  | .top (.dateColor v) => .str v
  | .top (.resourceType v) => .res v
  | .top (.resourceUrl v) => .str v
  | .button _ (.bshown v) => .bool v
  | .button _ (.btext v) => .str v
  | .button _ (.burl v) => .str v
  | .button _ (.bcolor v) => .str v
  | .background (.btype v) => .bgt v
  | .background (.bcolor v) => .str v
  | .background (.bfrom v) => .str v
  | .background (.bto v) => .str v
  | .background (.bdir v) => .dir v

/-! ## Preview renderer

Embeds `getBackgroundStyle` (source lines 458-468) and
`renderLandingPageContent` (source lines 514-711) as a pure render
description.  `previewMode` is `mobile` (the compact layout) or `desktop`
(the wide layout); the component state bits that the markup reads
(`showRating`, `shouldPulse`, `showFeedbackModal`) are passed explicitly.
-/

inductive PreviewMode
  | mobile
  | desktop
deriving DecidableEq

/-- The inline style `getBackgroundStyle` produces: a flat `backgroundColor`
or a two-stop `linear-gradient` along one of four directions. -/
inductive BgStyle
  | solidColor (c : String)
  | gradientCss (css : String)
deriving DecidableEq

def directionCss : GradDir → String
  | .toR => "to right"
  | .toBr => "to bottom right"
  | .toB => "to bottom"
  | .toBl => "to bottom left"

/-- `getBackgroundStyle` (source lines 458-468). -/
def getBackgroundStyle (d : LandingPageData) : BgStyle :=
  if d.background.type = BgType.gradient then
    .gradientCss ("linear-gradient(" ++ directionCss d.background.gradientDirection
      ++ ", " ++ d.background.gradientFrom ++ ", " ++ d.background.gradientTo ++ ")")
  else
    .solidColor d.background.color

def monthName : Nat → String
  | 1 => "January"
  | 2 => "February"
  | 3 => "March"
  | 4 => "April"
  | 5 => "May"
  | 6 => "June"
  | 7 => "July"
  | 8 => "August"
  | 9 => "September"
  | 10 => "October"
  | 11 => "November"
  | 12 => "December"
  | _ => ""

/-- `format(date, "MMMM d, yyyy")` from date-fns as used at source line 545. -/
def formatLongDate (dt : SimpleDate) : String :=
  monthName dt.month ++ " " ++ toString dt.day ++ ", " ++ toString dt.year

/-- A rendered action button: its label, target URL, background color and
layout width class. -/
structure RenderedButton where
  text : String
  url : String
  color : String
  widthClass : String
deriving DecidableEq

/-- The media block: an image with a source URL, or the video placeholder
box. -/
structure RenderedMedia where
  isImage : Bool
  src : String
  heightClass : String
deriving DecidableEq

/-- The render description produced for one (document, layout mode) pair. -/
structure RenderDesc where
  paddingClass : String
  backgroundStyle : BgStyle
  logoSrc : String
  logoClass : String
  layoutClass : String
  titleText : String
  titleClass : String
  titleColor : String
  descriptionHtml : String
  descriptionClass : String
  descriptionColor : String
  dateText : Option String
  dateClass : String
  dateColor : String
  media : RenderedMedia
  buttons : List RenderedButton
  feedbackAffordance : Bool
  feedbackPulse : Bool
  ratingShown : Bool
  modalOpen : Bool
deriving DecidableEq

/-- `renderLandingPageContent` (source lines 514-711). -/
def renderLandingPageContent (d : LandingPageData) (mode : PreviewMode)
    (showRating shouldPulse showFeedbackModal : Bool) : RenderDesc :=
  { paddingClass := if mode = PreviewMode.mobile then "p-6" else "p-8"
    backgroundStyle := getBackgroundStyle d
    logoSrc := if d.logo = "" then "/placeholder.svg" else d.logo
    logoClass := if mode = PreviewMode.mobile then "h-8" else "h-10"
    layoutClass :=
      if mode = PreviewMode.desktop then "grid lg:grid-cols-2 gap-12 items-start"
      else "space-y-6"
    titleText := renderDynamicText d.title
    titleClass := if mode = PreviewMode.mobile then "text-xl" else "text-4xl"
    titleColor := d.titleColor
    descriptionHtml := renderRichTextWithDynamicFields d.description
    descriptionClass := if mode = PreviewMode.mobile then "text-sm" else "text-lg"
    descriptionColor := d.descriptionColor
    dateText :=
      if d.showDate then d.selectedDate.map formatLongDate else none
    dateClass := if mode = PreviewMode.mobile then "text-sm" else "text-base"
    dateColor := d.dateColor
    media :=
      if d.resourceType = ResourceType.image then
        { isImage := true
          src := if d.resourceUrl = "" then "/placeholder.svg" else d.resourceUrl
          heightClass := if mode = PreviewMode.mobile then "h-32" else "h-64" }
      else
        { isImage := false
          src := ""
          heightClass := if mode = PreviewMode.mobile then "h-32" else "h-64" }
    buttons :=
      (if d.button1.shown then
        [{ text := d.button1.text, url := d.button1.url, color := d.button1.color
           widthClass := if mode = PreviewMode.desktop then "flex-1" else "w-full text-sm" }]
       else []) ++
      (if d.button2.shown then
        [{ text := d.button2.text, url := d.button2.url, color := d.button2.color
           widthClass := if mode = PreviewMode.desktop then "flex-1" else "w-full text-sm" }]
       else [])
    feedbackAffordance := !showRating
    feedbackPulse := shouldPulse
    ratingShown := showRating
    modalOpen := showFeedbackModal }

/-- The layout-independent semantic content of a render: substituted title
text, substituted description markup, the labels and target URLs of the shown
buttons, and the formatted date line. -/
structure SemanticContent where
  title : String
  description : String
  buttons : List (String × String)
  dateText : Option String
deriving DecidableEq

def semanticOf (r : RenderDesc) : SemanticContent :=
  { title := r.titleText
    description := r.descriptionHtml
    buttons := r.buttons.map (fun b => (b.text, b.url))
    dateText := r.dateText }

/-! ## Feedback state machine

Embeds the interaction of `FeedbackModal` (source lines 136-278) with its
host (`showFeedbackModal` / `showRating`, lines 383-384, and
`handleFeedbackModalClose`, lines 505-508).
-/

inductive SubMode
  | video
  | text
deriving DecidableEq

/-- `Idle` is modal closed and no rating; `modalOpen` carries the
`feedbackType` sub-mode, the `isRecording` flag and the `textFeedback` draft;
`ratingShown` is the terminal rating display. -/
inductive FbState
  | idle
  | modalOpen (sub : SubMode) (recording : Bool) (draft : String)
  | ratingShown
deriving DecidableEq

inductive FbEvent
  | activate
  | selectMode (m : SubMode)
  | toggleRecording
  | setDraft (s : String)
  | submit
  | close
deriving DecidableEq

/-- The code points `String.prototype.trim` strips - the ECMAScript
WhiteSpace and LineTerminator productions: TAB, LF, VT, FF, CR, SP, NBSP,
ZWNBSP, every Space_Separator character, and the LS/PS line terminators. -/
def jsWhitespaceCodes : List Nat :=
  [0x9, 0xA, 0xB, 0xC, 0xD, 0x20, 0xA0, 0x1680,
   0x2000, 0x2001, 0x2002, 0x2003, 0x2004, 0x2005, 0x2006, 0x2007,
   0x2008, 0x2009, 0x200A, 0x2028, 0x2029, 0x202F, 0x205F, 0x3000, 0xFEFF]

def isJsWhitespace (c : Char) : Bool :=
  jsWhitespaceCodes.contains c.toNat

/-- Truthiness of `textFeedback.trim()`: some character of the draft
survives a JavaScript trim. -/
def hasVisibleText (s : String) : Bool :=
  s.data.any (fun c => !isJsWhitespace c)

/-- One step of the feedback interaction.  Activation opens the modal in the
default `video` sub-mode; the sub-mode switch buttons move freely between the
two sub-modes; the record button toggles `isRecording` (video sub-mode only);
the submit button is rendered only while recording in video sub-mode and is
disabled on blank trimmed text in text sub-mode; submitting calls `onClose`,
and closing runs `handleFeedbackModalClose`, which shows the rating.  Events
whose controls are not on screen leave the state unchanged. -/
def fbStep : FbState → FbEvent → FbState
  | .idle, .activate => .modalOpen .video false ""
  | .idle, _ => .idle
  | .modalOpen _ r dr, .selectMode m => .modalOpen m r dr
  | .modalOpen .video r dr, .toggleRecording => .modalOpen .video (!r) dr
  | .modalOpen .text r dr, .toggleRecording => .modalOpen .text r dr
  | .modalOpen .video r dr, .setDraft _ => .modalOpen .video r dr
  | .modalOpen .text r _, .setDraft s => .modalOpen .text r s
  | .modalOpen .video r dr, .submit =>
      if r then .ratingShown else .modalOpen .video r dr
  | .modalOpen .text r dr, .submit =>
      if hasVisibleText dr then .ratingShown else .modalOpen .text r dr
  | .modalOpen _ _ _, .close => .ratingShown
  | .modalOpen s r dr, .activate => .modalOpen s r dr
  | .ratingShown, _ => .ratingShown

/-- Run a sequence of events. -/
def fbRun (s : FbState) : List FbEvent → FbState
  | [] => s
  | e :: es => fbRun (fbStep s e) es

/-! ## Contact-card export

Embeds `handleSaveVCard` (source `src/app/page.tsx`, lines 19-40): the fixed
vCard text written to the downloaded file. -/

def vCardData : String :=
  "BEGIN:VCARD\nVERSION:3.0\nFN:Alex Johnson\nORG:Delightloop\nTITLE:Senior Product Designer\nTEL:+1-555-0123\nEMAIL:alex@delightloop.com\nURL:https://linkedin.com/in/alexjohnson\nADR:;;123 Innovation Drive;San Francisco;CA;94105;USA\nEND:VCARD"

/-- Split a character list at every occurrence of a separator character. -/
def splitOnChar (sep : Char) : List Char → List (List Char)
  | [] => [[]]
  | c :: rest =>
      let r := splitOnChar sep rest
      if c = sep then [] :: r
      else (c :: r.headD []) :: r.tail

/-- The lines of a string, split at newline characters. -/
def linesOf (s : String) : List String :=
  (splitOnChar '\n' s.data).map String.mk

/-- The text before the first `:` of a string (the vCard field name). -/
def fieldNameOf (s : String) : String :=
  String.mk (s.data.takeWhile (fun c => c != ':'))

/-! ## Small string-level helpers -/

theorem string_data_append (s t : String) : (s ++ t).data = s.data ++ t.data :=
  rfl

theorem string_mk_data (s : String) : String.mk s.data = s :=
  rfl

theorem data_ne_nil_of_ne_empty {s : String} (h : s ≠ "") : s.data ≠ [] := by
  intro hd
  apply h
  cases s with
  | mk l =>
      simp only at hd
      subst hd
      rfl

/-! ## Claims about the substitution engine -/

/-- C1 counterexample: a token named `constructor` is not resolved to the
bracketed name - the property access walks the prototype chain, finds the
inherited `Object` constructor, which is truthy, and the replace callback
substitutes its string coercion. -/
theorem renderDynamicText_prototype_counterexample :
    renderDynamicText "\x7b\x7bconstructor\x7d\x7d" = protoCoerced "constructor"
  ∧ renderDynamicText "\x7b\x7bconstructor\x7d\x7d" ≠ "[constructor]" :=
  ⟨by decide, by decide⟩

/-- C1 (amended): `renderDynamicText` replaces every regex token whose name
is `first-name`, `last-name`, `company` or `gift-name` with its fixed sample
value (Sarah, Johnson, Acme Corp, Premium Package); a token with any other
name that is not an `Object.prototype` member name is replaced by the
bracketed token name, while a token named after an `Object.prototype` member
substitutes the string coercion of the truthy inherited value instead; in
particular `substitute("Hi \x7b\x7bfirst-name\x7d\x7d") = "Hi Sarah"` and
`substitute("\x7b\x7bunknown\x7d\x7d") = "[unknown]"`. -/
theorem renderDynamicText_substitution (n : String) (h1 : n ≠ "")
    (h2 : ∀ c ∈ n.data, c ≠ '}') :
    renderDynamicText "Hi \x7b\x7bfirst-name\x7d\x7d" = "Hi Sarah"
  ∧ renderDynamicText "\x7b\x7bunknown\x7d\x7d" = "[unknown]"
  ∧ renderDynamicText ("\x7b\x7b" ++ n ++ "\x7d\x7d") = lookupSample n
  ∧ lookupSample "first-name" = "Sarah"
  ∧ lookupSample "last-name" = "Johnson"
  ∧ lookupSample "company" = "Acme Corp"
  ∧ lookupSample "gift-name" = "Premium Package"
  ∧ (n ≠ "first-name" → n ≠ "last-name" → n ≠ "company" → n ≠ "gift-name" →
      n ∉ objectPrototypeMembers → lookupSample n = "[" ++ n ++ "]")
  ∧ (n ∈ objectPrototypeMembers → lookupSample n = protoCoerced n) := by
  refine ⟨by decide, by decide, ?_, rfl, rfl, rfl, rfl, ?_, ?_⟩
  · have hne : n.data ≠ [] := data_ne_nil_of_ne_empty h1
    have hstep := substChars_token (n := n.data) [] hne h2
    have hd : ("\x7b\x7b" ++ n ++ "\x7d\x7d").data
        = '{' :: '{' :: (n.data ++ '}' :: '}' :: []) := by
      have e1 : ("\x7b\x7b" : String).data = ['{', '{'] := rfl
      have e2 : ("\x7d\x7d" : String).data = ['}', '}'] := rfl
      simp [string_data_append, e1, e2]
    rw [renderDynamicText, hd, hstep]
    rw [show substChars [] = [] from rfl]
    simp [string_mk_data]
  · intro g1 g2 g3 g4 g5
    rw [lookupSample]
    simp [g1, g2, g3, g4, g5]
  · intro hmem
    simp only [objectPrototypeMembers, List.mem_cons, List.not_mem_nil,
      or_false] at hmem
    rcases hmem with rfl | rfl | rfl | rfl | rfl | rfl | rfl | rfl | rfl |
      rfl | rfl | rfl <;> decide

theorem renderDynamicText_substitution_witness :
    renderDynamicText "\x7b\x7bgift-name\x7d\x7d" = "Premium Package" := by
  have h := (renderDynamicText_substitution "gift-name" (by decide) (by decide)).2.2.1
  exact h

/-- C2 counterexample: the claim reads the substring between the first
`\x7b\x7b` and the next `\x7d\x7d` as one token even when it contains a lone
`\x7d`, so on `\x7b\x7ba\x7db\x7d\x7d` it predicts the resolution `[a\x7db]`;
the code's regex forbids `\x7d` inside a captured name, matches nothing here,
and returns the input verbatim. -/
theorem renderDynamicText_lone_brace_counterexample :
    renderDynamicText "\x7b\x7ba\x7db\x7d\x7d" = "\x7b\x7ba\x7db\x7d\x7d"
  ∧ renderDynamicText "\x7b\x7ba\x7db\x7d\x7d" ≠ "[a\x7db]" := by
  exact ⟨by decide, by decide⟩

/-- C2 (amended): the scan is single-pass, left to right and non-recursive -
a matched token is resolved through the sample table and scanning resumes
after the token, never inside the replacement, whose text can even still
contain a recognizable token; a token is the substring between `\x7b\x7b` and
the next `\x7d\x7d` only when that substring is nonempty and contains no
`\x7d` character; when a lone `\x7d` intervenes (or the name is empty) no
token is recognized there and the text is left verbatim; there is no escaping
mechanism. -/
theorem renderDynamicText_single_pass (n rest : String) (h1 : n ≠ "")
    (h2 : ∀ c ∈ n.data, c ≠ '}') :
    renderDynamicText ("\x7b\x7b" ++ n ++ "\x7d\x7d" ++ rest)
      = lookupSample n ++ renderDynamicText rest
  ∧ renderDynamicText "\x7b\x7ba\x7db\x7d\x7d" = "\x7b\x7ba\x7db\x7d\x7d"
  ∧ renderDynamicText "\x7b\x7b\x7d\x7d" = "\x7b\x7b\x7d\x7d"
  ∧ hasTokenStr (renderDynamicText "\x7b\x7b\x7b\x7ba\x7d\x7d\x7d\x7d") = true := by
  refine ⟨?_, by decide, by decide, by decide⟩
  have hne : n.data ≠ [] := data_ne_nil_of_ne_empty h1
  have hstep := substChars_token (n := n.data) rest.data hne h2
  have hd : ("\x7b\x7b" ++ n ++ "\x7d\x7d" ++ rest).data
      = '{' :: '{' :: (n.data ++ '}' :: '}' :: rest.data) := by
    have e1 : ("\x7b\x7b" : String).data = ['{', '{'] := rfl
    have e2 : ("\x7d\x7d" : String).data = ['}', '}'] := rfl
    simp [string_data_append, e1, e2]
  rw [renderDynamicText, hd, hstep]
  rfl

theorem renderDynamicText_single_pass_witness :
    renderDynamicText "\x7b\x7bcompany\x7d\x7d rocks" = "Acme Corp rocks" := by
  have h := (renderDynamicText_single_pass "company" " rocks" (by decide) (by decide)).1
  exact h

/-- C8: substitution is the identity on every string in which the token regex
never matches. -/
theorem renderDynamicText_token_free_id (s : String) (h : hasTokenStr s = false) :
    renderDynamicText s = s := by
  rw [renderDynamicText, substChars_id_of_no_token h]

theorem renderDynamicText_token_free_id_witness :
    hasTokenStr "Hello there, welcome to the event." = false
  ∧ renderDynamicText "Hello there, welcome to the event." =
      "Hello there, welcome to the event." :=
  ⟨by decide, renderDynamicText_token_free_id "Hello there, welcome to the event." (by decide)⟩

/-! ## Claims about the seed merge -/

/-- The seed of the spec's example: only `button1.text` is provided. -/
def seedButton1Text (t : String) : InitialLandingPageData :=
  { emptySeed with button1 := some { text := some t, url := none, color := none } }

/-- C3: merging a seed into defaults overrides a top-level scalar only when
the seed provides it, merges `button1`/`button2` key by key instead of
wholesale, so omitted nested fields keep their defaults; in particular
`merge(defaults, \x7bbutton1:\x7btext:"X"\x7d\x7d).button1.url` equals the
default url and `merge(defaults, \x7b\x7d) = defaults`. -/
theorem mergeInitialData_merge_rule (d : LandingPageData)
    (s : InitialLandingPageData) :
    mergeInitialData d none = d
  ∧ mergeInitialData d (some emptySeed) = d
  ∧ (s.logo = none → (mergeInitialData d (some s)).logo = d.logo)
  ∧ (s.title = none → (mergeInitialData d (some s)).title = d.title)
  ∧ (s.description = none → (mergeInitialData d (some s)).description = d.description)
  ∧ (s.resourceUrl = none → (mergeInitialData d (some s)).resourceUrl = d.resourceUrl)
  ∧ (s.resourceType = none → (mergeInitialData d (some s)).resourceType = d.resourceType)
  ∧ (s.selectedDate = none → (mergeInitialData d (some s)).selectedDate = d.selectedDate)
  ∧ (s.showDate = none → (mergeInitialData d (some s)).showDate = d.showDate)
  ∧ (mergeInitialData d (some s)).titleColor = d.titleColor
  ∧ (mergeInitialData d (some s)).button1.shown = d.button1.shown
  ∧ (mergeInitialData d (some s)).button2.shown = d.button2.shown
  ∧ (s.button1 = none → (mergeInitialData d (some s)).button1 = d.button1)
  ∧ (s.button2 = none → (mergeInitialData d (some s)).button2 = d.button2)
  ∧ (∀ b, s.button1 = some b →
        (b.text = none → (mergeInitialData d (some s)).button1.text = d.button1.text)
      ∧ (b.url = none → (mergeInitialData d (some s)).button1.url = d.button1.url)
      ∧ (b.color = none → (mergeInitialData d (some s)).button1.color = d.button1.color))
  ∧ (∀ b, s.button2 = some b →
        (b.text = none → (mergeInitialData d (some s)).button2.text = d.button2.text)
      ∧ (b.url = none → (mergeInitialData d (some s)).button2.url = d.button2.url)
      ∧ (b.color = none → (mergeInitialData d (some s)).button2.color = d.button2.color))
  ∧ (mergeInitialData d (some (seedButton1Text "X"))).button1.url = d.button1.url
  ∧ (mergeInitialData d (some (seedButton1Text "X"))).button1.text = "X" := by
  refine ⟨rfl, rfl, fun h => ?_, fun h => ?_, fun h => ?_, fun h => ?_, fun h => ?_,
    fun h => ?_, fun h => ?_, rfl, rfl, rfl, fun h => ?_, fun h => ?_,
    fun b hb => ⟨fun h => ?_, fun h => ?_, fun h => ?_⟩,
    fun b hb => ⟨fun h => ?_, fun h => ?_, fun h => ?_⟩, ?_, ?_⟩ <;>
    simp_all [mergeInitialData, mergeButton, strOverride, seedButton1Text, emptySeed]

theorem mergeInitialData_merge_rule_witness :
    mergeInitialData (defaultData ⟨2025, 10, 11⟩) (some emptySeed)
      = defaultData ⟨2025, 10, 11⟩
  ∧ (mergeInitialData (defaultData ⟨2025, 10, 11⟩) (some (seedButton1Text "X"))).logo
      = (defaultData ⟨2025, 10, 11⟩).logo
  ∧ (mergeInitialData (defaultData ⟨2025, 10, 11⟩) (some (seedButton1Text "X"))).button1.url
      = (defaultData ⟨2025, 10, 11⟩).button1.url
  ∧ (mergeInitialData (defaultData ⟨2025, 10, 11⟩) (some (seedButton1Text "X"))).button1.text
      = "X" := by
  obtain ⟨-, h2, h3, -, -, -, -, -, -, -, -, -, -, -, hb1, -, h17, h18⟩ :=
    mergeInitialData_merge_rule (defaultData ⟨2025, 10, 11⟩) (seedButton1Text "X")
  exact ⟨h2, h3 rfl, h17, h18⟩

/-- C10 (implicit): a top-level scalar string field that the seed provides as
the empty string does not override the default, because the conditional
spread tests JavaScript truthiness and the empty string is falsy; a seed
cannot blank out `logo`, `title`, `description` or `resourceUrl`. -/
theorem mergeInitialData_empty_string_keeps_default (d : LandingPageData)
    (s : InitialLandingPageData) :
    (s.logo = some "" → (mergeInitialData d (some s)).logo = d.logo)
  ∧ (s.title = some "" → (mergeInitialData d (some s)).title = d.title)
  ∧ (s.description = some "" → (mergeInitialData d (some s)).description = d.description)
  ∧ (s.resourceUrl = some "" → (mergeInitialData d (some s)).resourceUrl = d.resourceUrl) := by
  refine ⟨fun h => ?_, fun h => ?_, fun h => ?_, fun h => ?_⟩ <;>
    simp [mergeInitialData, strOverride, h]

/-- A seed that provides every overridable scalar string as the empty
string. -/
def blankSeed : InitialLandingPageData :=
  { emptySeed with
    logo := some "", title := some "", description := some "", resourceUrl := some "" }

theorem mergeInitialData_empty_string_keeps_default_witness :
    (mergeInitialData (defaultData ⟨2026, 1, 2⟩) (some blankSeed)).logo
      = (defaultData ⟨2026, 1, 2⟩).logo
  ∧ (mergeInitialData (defaultData ⟨2026, 1, 2⟩) (some blankSeed)).title
      = (defaultData ⟨2026, 1, 2⟩).title
  ∧ (mergeInitialData (defaultData ⟨2026, 1, 2⟩) (some blankSeed)).description
      = (defaultData ⟨2026, 1, 2⟩).description
  ∧ (mergeInitialData (defaultData ⟨2026, 1, 2⟩) (some blankSeed)).resourceUrl
      = (defaultData ⟨2026, 1, 2⟩).resourceUrl := by
  obtain ⟨h1, h2, h3, h4⟩ :=
    mergeInitialData_empty_string_keeps_default (defaultData ⟨2026, 1, 2⟩) blankSeed
  exact ⟨h1 rfl, h2 rfl, h3 rfl, h4 rfl⟩

/-! ## Claims about the configuration store -/

/-- The background leaf an `updateBackground` call names. -/
def bgTarget : BgFieldUpdate → BgLeaf
  | .btype _ => .ltype
  | .bcolor _ => .lcolor
  | .bfrom _ => .lfrom
  | .bto _ => .lto
  | .bdir _ => .ldir

/-- C4: `updateBackground` changes only the named background sub-field and
retains every other background field, including the fields of the inactive
rendering path, and leaves the rest of the document untouched; hence toggling
`background.type` solid-to-gradient-and-back leaves `background.color` at its
prior value. -/
theorem updateBackground_preserves_inactive (d : LandingPageData)
    (u : BgFieldUpdate) :
    (∀ p : BgLeaf, p ≠ bgTarget u →
        bgGet (updateBackground d u).background p = bgGet d.background p)
  ∧ (updateBackground (updateBackground d (BgFieldUpdate.btype BgType.gradient))
        (BgFieldUpdate.btype BgType.solid)).background.color = d.background.color
  ∧ (updateBackground d u).logo = d.logo
  ∧ (updateBackground d u).title = d.title
  ∧ (updateBackground d u).titleColor = d.titleColor
  ∧ (updateBackground d u).description = d.description
  ∧ (updateBackground d u).descriptionColor = d.descriptionColor
  ∧ (updateBackground d u).showDate = d.showDate
  ∧ (updateBackground d u).selectedDate = d.selectedDate
  ∧ (updateBackground d u).dateColor = d.dateColor
  ∧ (updateBackground d u).resourceType = d.resourceType
  ∧ (updateBackground d u).resourceUrl = d.resourceUrl
  ∧ (updateBackground d u).button1 = d.button1
  ∧ (updateBackground d u).button2 = d.button2 := by
  refine ⟨?_, rfl, rfl, rfl, rfl, rfl, rfl, rfl, rfl, rfl, rfl, rfl, rfl, rfl⟩
  intro p hp
  cases u <;> cases p <;>
    simp_all [updateBackground, applyBgField, bgGet, bgTarget]

theorem updateBackground_preserves_inactive_witness :
    bgGet (updateBackground (defaultData ⟨2025, 3, 4⟩)
        (BgFieldUpdate.btype BgType.gradient)).background BgLeaf.lcolor
      = bgGet (defaultData ⟨2025, 3, 4⟩).background BgLeaf.lcolor
  ∧ (updateBackground (updateBackground (defaultData ⟨2025, 3, 4⟩)
        (BgFieldUpdate.btype BgType.gradient))
        (BgFieldUpdate.btype BgType.solid)).background.color
      = (defaultData ⟨2025, 3, 4⟩).background.color := by
  obtain ⟨h1, h2, -⟩ := updateBackground_preserves_inactive (defaultData ⟨2025, 3, 4⟩)
    (BgFieldUpdate.btype BgType.gradient)
  exact ⟨h1 BgLeaf.lcolor (by decide), h2⟩

/-- C5: every mutating call builds a brand-new full snapshot equal to the
prior document with exactly the one named field path replaced by the new
value, all other field paths unchanged, and hands the sink exactly one
notification per call, carrying that complete snapshot, never a delta. -/
theorem runUpdate_snapshot_frame (d : LandingPageData) (u : StoreUpdate) :
    (runUpdate d u).2 = [(runUpdate d u).1]
  ∧ (runUpdate d u).1 = applyUpdate d u
  ∧ getLeaf (applyUpdate d u) (targetPath u) = targetVal u
  ∧ (∀ p : FieldPath, p ≠ targetPath u →
        getLeaf (applyUpdate d u) p = getLeaf d p) := by
  refine ⟨rfl, rfl, ?_, ?_⟩
  · rcases u with u | ⟨i, u⟩ | u
    · cases u <;> rfl
    · cases i <;> cases u <;> rfl
    · cases u <;> rfl
  · intro p hp
    rcases u with u | ⟨i, u⟩ | u
    · cases u <;> cases p <;>
        first
          | rfl
          | exact absurd rfl hp
    · cases i <;> cases u <;> cases p <;>
        first
          | rfl
          | exact absurd rfl hp
          | (rename_i j f
             cases j <;> cases f <;> first | rfl | exact absurd rfl hp)
    · cases u <;> cases p <;>
        first
          | rfl
          | exact absurd rfl hp
          | (rename_i q
             cases q <;> first | rfl | exact absurd rfl hp)

theorem runUpdate_snapshot_frame_witness :
    (runUpdate (defaultData ⟨2025, 5, 6⟩)
        (StoreUpdate.top (TopFieldUpdate.title "Hi"))).2
      = [(runUpdate (defaultData ⟨2025, 5, 6⟩)
          (StoreUpdate.top (TopFieldUpdate.title "Hi"))).1]
  ∧ getLeaf (applyUpdate (defaultData ⟨2025, 5, 6⟩)
        (StoreUpdate.top (TopFieldUpdate.title "Hi"))) FieldPath.logo
      = getLeaf (defaultData ⟨2025, 5, 6⟩) FieldPath.logo := by
  obtain ⟨h1, -, -, h4⟩ := runUpdate_snapshot_frame (defaultData ⟨2025, 5, 6⟩)
    (StoreUpdate.top (TopFieldUpdate.title "Hi"))
  exact ⟨h1, h4 FieldPath.logo (by decide)⟩

/-! ## Claim about the preview renderer -/

/-- C6: for every document, the compact (mobile) and wide (desktop) renders
expose identical semantic content - the same substituted title text, the same
substituted description markup, the same labels and target URLs for each shown
button, and the same formatted date line - differing only in layout and type
scale. -/
theorem render_semantics_mode_independent (d : LandingPageData)
    (showRating shouldPulse showFeedbackModal : Bool) :
    semanticOf (renderLandingPageContent d PreviewMode.mobile
        showRating shouldPulse showFeedbackModal)
      = semanticOf (renderLandingPageContent d PreviewMode.desktop
        showRating shouldPulse showFeedbackModal) := by
  simp [renderLandingPageContent, semanticOf]
  cases d.button1.shown <;> cases d.button2.shown <;> simp

/-! ## Claim about the feedback state machine -/

/-- C7: activating the feedback affordance while idle opens the modal in the
video sub-mode; within the modal the sub-mode switches freely in both
directions; submitting - while recording in video sub-mode, or with visible
trimmed text in text sub-mode - and explicitly closing the modal all move to
the rating display; and no event sequence from any non-idle state ever
reaches idle again. -/
theorem feedback_machine_transitions :
    fbStep FbState.idle FbEvent.activate = FbState.modalOpen SubMode.video false ""
  ∧ (∀ (m m' : SubMode) (r : Bool) (dr : String),
        fbStep (FbState.modalOpen m r dr) (FbEvent.selectMode m')
          = FbState.modalOpen m' r dr)
  ∧ (∀ dr : String,
        fbStep (FbState.modalOpen SubMode.video true dr) FbEvent.submit
          = FbState.ratingShown)
  ∧ (∀ (r : Bool) (dr : String), hasVisibleText dr = true →
        fbStep (FbState.modalOpen SubMode.text r dr) FbEvent.submit
          = FbState.ratingShown)
  ∧ (∀ (m : SubMode) (r : Bool) (dr : String),
        fbStep (FbState.modalOpen m r dr) FbEvent.close = FbState.ratingShown)
  ∧ (∀ s : FbState, s ≠ FbState.idle →
        ∀ es : List FbEvent, fbRun s es ≠ FbState.idle) := by
  have hstep : ∀ (s : FbState) (e : FbEvent),
      s ≠ FbState.idle → fbStep s e ≠ FbState.idle := by
    intro s e hs
    cases s with
    | idle => exact absurd rfl hs
    | modalOpen m r dr =>
        cases e <;> cases m <;> simp only [fbStep] <;>
          first
            | (split <;> simp)
            | simp
    | ratingShown => cases e <;> simp [fbStep]
  refine ⟨rfl, ?_, ?_, ?_, ?_, ?_⟩
  · intro m m' r dr
    cases m <;> rfl
  · intro dr
    rfl
  · intro r dr h
    simp [fbStep, h]
  · intro m r dr
    cases m <;> rfl
  · intro s hs es
    induction es generalizing s with
    | nil => exact hs
    | cons e es ih => exact ih (fbStep s e) (hstep s e hs)

theorem feedback_machine_transitions_witness :
    hasVisibleText "great event" = true
  ∧ fbStep (FbState.modalOpen SubMode.text false "great event") FbEvent.submit
      = FbState.ratingShown
  ∧ fbRun FbState.ratingShown [FbEvent.activate, FbEvent.close] ≠ FbState.idle := by
  obtain ⟨-, -, -, h4, -, h6⟩ := feedback_machine_transitions
  exact ⟨by decide, h4 false "great event" (by decide),
    h6 FbState.ratingShown (by decide) [FbEvent.activate, FbEvent.close]⟩

/-! ## Claim about the contact-card export -/

/-- C9: the exported contact record consists of exactly the lines
`BEGIN:VCARD`, `VERSION:3.0`, `FN`, `ORG`, `TITLE`, `TEL`, `EMAIL`, `URL`,
`ADR`, `END:VCARD`, one field per line, in this order, with no field omitted,
and the blank address subfields are still present as empty components between
the literal semicolon separators of the `ADR` line. -/
theorem vCard_fixed_schema :
    linesOf vCardData =
      ["BEGIN:VCARD", "VERSION:3.0", "FN:Alex Johnson", "ORG:Delightloop",
       "TITLE:Senior Product Designer", "TEL:+1-555-0123",
       "EMAIL:alex@delightloop.com", "URL:https://linkedin.com/in/alexjohnson",
       "ADR:;;123 Innovation Drive;San Francisco;CA;94105;USA", "END:VCARD"]
  ∧ (linesOf vCardData).map fieldNameOf =
      ["BEGIN", "VERSION", "FN", "ORG", "TITLE", "TEL", "EMAIL", "URL", "ADR",
       "END"]
  ∧ (splitOnChar ';' ("ADR:;;123 Innovation Drive;San Francisco;CA;94105;USA" : String).data).map String.mk
      = ["ADR:", "", "123 Innovation Drive", "San Francisco", "CA", "94105",
         "USA"] :=
  ⟨by decide, by decide, by decide⟩
